import Mathlib

/-!
Shallow embedding of the serial UPDI programming stack of pymcuprog.

Each Python function that the development reasons about is translated into a
Lean definition.  Serial traffic is modelled as traces of events: the
read/write (RW) layer produces data-link events, the NVM variant drivers
produce NVM-controller events, and the application layer produces
control/status events.  Wall-clock busy-wait loops are modelled by the finite
list of STATUS values the loop observes before its millisecond budget
expires; an empty remainder of the list is budget expiry.  Python exceptions
are modelled with `Except`.
-/

/-- Exception kinds of pymcuprog_errors.py restricted to the classes the
serial UPDI stack raises.  `serialUpdiLocked`, `serialUpdiNvmError`,
`serialUpdiNvmTimeout` and `serialUpdiProtocol` are subclasses of
`serialUpdi` in the source; they are distinct constructors here, which
preserves exactly the distinctions the source can observe with `except`
clauses.  `indexError`, `exception` and `ioError` stand for Python's
built-in IndexError, Exception and IOError, which the legacy drivers in
serialupdi/nvm.py raise. -/
inductive PymcuprogException where
  | serialUpdi (msg : String)
  | serialUpdiLocked (msg : String)
  | serialUpdiNvmError (msg : String) (code : Nat)
  | serialUpdiNvmTimeout (msg : String)
  | serialUpdiProtocol (msg : String)
  | sessionError (msg : String)
  | indexError
  | exception (msg : String)
  | ioError (msg : String)
  deriving DecidableEq, Repr

/-- constants.py: UPDI_MAX_REPEAT_SIZE = (0xFF+1). -/
def UPDI_MAX_REPEAT_SIZE : Nat := 0xFF + 1

/-- Data-link layer calls made by the RW layer (readwrite.py), recorded as
trace events.  One constructor per datalink method used. -/
inductive DLEvent where
  | st_ptr (address : Nat)
  | repeat (size : Nat)
  | st_ptr_inc (data : List Nat)
  | st_ptr_inc16 (data : List Nat)
  | ld_ptr_inc (size : Nat)
  | ld_ptr_inc16 (words : Nat)
  | st (address value : Nat)
  | st16 (address value : Nat)
  deriving DecidableEq, Repr

/-- readwrite.py UpdiReadWrite.read_data: raises a protocol error when more
than UPDI_MAX_REPEAT_SIZE bytes are requested; otherwise sets the pointer,
fires a REPEAT when size > 1, and loads size bytes with pointer increment. -/
def UpdiReadWrite.read_data (address size : Nat) :
    Except PymcuprogException (List DLEvent) :=
  if size > UPDI_MAX_REPEAT_SIZE then
    .error (.serialUpdiProtocol
      ("UPDI cannot read " ++ toString size ++ " bytes in one go"))
  else
    .ok ([DLEvent.st_ptr address]
      ++ (if size > 1 then [DLEvent.repeat size] else [])
      ++ [DLEvent.ld_ptr_inc size])

/-- readwrite.py UpdiReadWrite.read_data_words: raises a protocol error when
more than UPDI_MAX_REPEAT_SIZE >> 1 words are requested. -/
def UpdiReadWrite.read_data_words (address words : Nat) :
    Except PymcuprogException (List DLEvent) :=
  if words > UPDI_MAX_REPEAT_SIZE >>> 1 then
    .error (.serialUpdiProtocol
      ("UPDI cannot read " ++ toString words ++ " words in one go"))
  else
    .ok ([DLEvent.st_ptr address]
      ++ (if words > 1 then [DLEvent.repeat words] else [])
      ++ [DLEvent.ld_ptr_inc16 words])

/-- readwrite.py UpdiReadWrite.write_data_words: 1 word is a direct st16;
more than UPDI_MAX_REPEAT_SIZE << 1 bytes is a protocol error; otherwise one
pointer-set + REPEAT + word store with pointer increment. -/
def UpdiReadWrite.write_data_words (address : Nat) (data : List Nat) :
    Except PymcuprogException (List DLEvent) :=
  if data.length = 2 then
    .ok [DLEvent.st16 address (data.getD 0 0 + (data.getD 1 0) <<< 8)]
  else if data.length > UPDI_MAX_REPEAT_SIZE <<< 1 then
    .error (.serialUpdiProtocol
      ("UPDI cannot write " ++ toString data.length ++ " bytes in one go"))
  else
    .ok [DLEvent.st_ptr address, DLEvent.repeat (data.length >>> 1),
         DLEvent.st_ptr_inc16 data]

/-- The while-loop of readwrite.py UpdiReadWrite.write_data: while bytes
remain, take a chunk of at most UPDI_MAX_REPEAT_SIZE bytes, set the pointer,
fire REPEAT for the chunk and store the chunk with pointer increment, then
advance the address past the chunk. -/
def UpdiReadWrite.write_data_chunks (address : Nat) (data : List Nat) :
    List DLEvent :=
  if h : data = [] then []
  else
    [DLEvent.st_ptr address,
     DLEvent.repeat (min data.length UPDI_MAX_REPEAT_SIZE),
     DLEvent.st_ptr_inc (data.take (min data.length UPDI_MAX_REPEAT_SIZE))] ++
      UpdiReadWrite.write_data_chunks
        (address + min data.length UPDI_MAX_REPEAT_SIZE)
        (data.drop (min data.length UPDI_MAX_REPEAT_SIZE))
termination_by data.length
decreasing_by
  simp only [List.length_drop]
  have hpos : 0 < data.length := List.length_pos.mpr h
  have hmin : 0 < min data.length UPDI_MAX_REPEAT_SIZE :=
    lt_min hpos (by norm_num [UPDI_MAX_REPEAT_SIZE])
  omega

/-- readwrite.py UpdiReadWrite.write_data: special cases for 1 and 2 bytes
(direct single-byte stores), otherwise the chunked burst loop. -/
def UpdiReadWrite.write_data (address : Nat) (data : List Nat) :
    List DLEvent :=
  match data with
  | [d0] => [DLEvent.st address d0]
  | [d0, d1] => [DLEvent.st address d0, DLEvent.st (address + 1) d1]
  | _ => UpdiReadWrite.write_data_chunks address data

/-- Reference shape of a chunked write trace: per chunk a pointer-set, a
REPEAT of the chunk length, and the chunk store, with the address advancing
by the chunk length. -/
def chunkTrace : Nat → List (List Nat) → List DLEvent
  | _, [] => []
  | address, c :: cs =>
    [DLEvent.st_ptr address, DLEvent.repeat c.length, DLEvent.st_ptr_inc c] ++
      chunkTrace (address + c.length) cs

/-- NVM-driver actions recorded as trace events: a wait_nvm_ready call with
its millisecond budget, a command byte written to the variant's CTRLA
register, and data transfers through the RW layer. -/
inductive NvmEvent where
  | waitReady (timeout_ms : Nat)
  | command (cmd : Nat)
  | writeData (address : Nat) (data : List Nat)
  | writeDataWords (address : Nat) (data : List Nat)
  deriving DecidableEq, Repr

/-- The CTRLA command bytes of a trace, in order. -/
def commandsOf (tr : List NvmEvent) : List Nat :=
  tr.filterMap fun e =>
    match e with
    | NvmEvent.command c => some c
    | _ => none

/-- nvmp0.py CTRLA command NVMCMD_CHIP_ERASE. -/
def NvmUpdiP0.NVMCMD_CHIP_ERASE : Nat := 0x05

/-- nvmp0.py STATUS bit positions. -/
def NvmUpdiP0.STATUS_WRITE_ERROR_bp : Nat := 2

def NvmUpdiP0.STATUS_EEPROM_BUSY_bp : Nat := 1

def NvmUpdiP0.STATUS_FLASH_BUSY_bp : Nat := 0

/-- nvmp0.py wait_nvm_ready default argument timeout_ms=100. -/
def NvmUpdiP0.wait_nvm_ready_default_timeout_ms : Nat := 100

/-- nvmp0.py NvmUpdiP0.wait_nvm_ready, as a function of the STATUS values
polled before the budget expires.  An error bit raises
PymcuprogSerialUpdiNvmError with the fixed code 1; clear busy bits return
True; budget expiry returns False. -/
def NvmUpdiP0.wait_nvm_ready_poll : List Nat → Except PymcuprogException Bool
  | [] => .ok false
  | status :: rest =>
    if status &&& (1 <<< NvmUpdiP0.STATUS_WRITE_ERROR_bp) ≠ 0 then
      .error (.serialUpdiNvmError "NVM error" 1)
    else if status &&& ((1 <<< NvmUpdiP0.STATUS_EEPROM_BUSY_bp) |||
        (1 <<< NvmUpdiP0.STATUS_FLASH_BUSY_bp)) = 0 then
      .ok true
    else
      NvmUpdiP0.wait_nvm_ready_poll rest

/-- nvmp0.py NvmUpdiP0.chip_erase: wait-ready, CHIP_ERASE command,
wait-ready; both waits use the default 100 ms budget and there is no NOCMD
on this variant.  `w1`/`w2` are the STATUS polls of the two waits. -/
def NvmUpdiP0.chip_erase (w1 w2 : List Nat) :
    List NvmEvent × Except PymcuprogException Unit :=
  match NvmUpdiP0.wait_nvm_ready_poll w1 with
  | .error e => ([NvmEvent.waitReady NvmUpdiP0.wait_nvm_ready_default_timeout_ms], .error e)
  | .ok false =>
    ([NvmEvent.waitReady NvmUpdiP0.wait_nvm_ready_default_timeout_ms],
     .error (.serialUpdiNvmTimeout
       "Timeout waiting for NVM controller to be ready before chip erase"))
  | .ok true =>
    match NvmUpdiP0.wait_nvm_ready_poll w2 with
    | .error e =>
      ([NvmEvent.waitReady NvmUpdiP0.wait_nvm_ready_default_timeout_ms,
        NvmEvent.command NvmUpdiP0.NVMCMD_CHIP_ERASE,
        NvmEvent.waitReady NvmUpdiP0.wait_nvm_ready_default_timeout_ms], .error e)
    | .ok st =>
      ([NvmEvent.waitReady NvmUpdiP0.wait_nvm_ready_default_timeout_ms,
        NvmEvent.command NvmUpdiP0.NVMCMD_CHIP_ERASE,
        NvmEvent.waitReady NvmUpdiP0.wait_nvm_ready_default_timeout_ms],
       if st then .ok () else
         .error (.serialUpdiNvmTimeout
           "Timeout waiting for NVM controller to be ready after chip erase"))

/-- nvmp4.py CTRLA commands. -/
def NvmUpdiP4.NVMCMD_NOCMD : Nat := 0x00

def NvmUpdiP4.NVMCMD_CHIP_ERASE : Nat := 0x20

def NvmUpdiP4.NVMCMD_FLASH_WRITE : Nat := 0x02

/-- nvmp4.py STATUS fields. -/
def NvmUpdiP4.STATUS_WRITE_ERROR_bm : Nat := 0x70

def NvmUpdiP4.STATUS_WRITE_ERROR_bp : Nat := 4

def NvmUpdiP4.STATUS_EEPROM_BUSY_bp : Nat := 0

def NvmUpdiP4.STATUS_FLASH_BUSY_bp : Nat := 1

/-- nvmp4.py wait_nvm_ready default argument timeout_ms=100. -/
def NvmUpdiP4.wait_nvm_ready_default_timeout_ms : Nat := 100

/-- nvmp4.py NvmUpdiP4.wait_nvm_ready: error bits raise
PymcuprogSerialUpdiNvmError with code = status >> 4 decoded from the STATUS
value just read; clear busy bits return True; budget expiry returns False. -/
def NvmUpdiP4.wait_nvm_ready_poll : List Nat → Except PymcuprogException Bool
  | [] => .ok false
  | status :: rest =>
    if status &&& NvmUpdiP4.STATUS_WRITE_ERROR_bm ≠ 0 then
      .error (.serialUpdiNvmError "NVM error"
        (status >>> NvmUpdiP4.STATUS_WRITE_ERROR_bp))
    else if status &&& ((1 <<< NvmUpdiP4.STATUS_EEPROM_BUSY_bp) |||
        (1 <<< NvmUpdiP4.STATUS_FLASH_BUSY_bp)) = 0 then
      .ok true
    else
      NvmUpdiP4.wait_nvm_ready_poll rest

/-- nvmp4.py NvmUpdiP4.chip_erase: wait-ready, CHIP_ERASE, wait-ready, then
NOCMD is written before the timeout is raised - but an NVM-error raised
inside the second wait propagates before the NOCMD write. -/
def NvmUpdiP4.chip_erase (w1 w2 : List Nat) :
    List NvmEvent × Except PymcuprogException Unit :=
  match NvmUpdiP4.wait_nvm_ready_poll w1 with
  | .error e => ([NvmEvent.waitReady NvmUpdiP4.wait_nvm_ready_default_timeout_ms], .error e)
  | .ok false =>
    ([NvmEvent.waitReady NvmUpdiP4.wait_nvm_ready_default_timeout_ms],
     .error (.serialUpdiNvmTimeout
       "Timeout waiting for NVM controller to be ready before chip erase"))
  | .ok true =>
    match NvmUpdiP4.wait_nvm_ready_poll w2 with
    | .error e =>
      ([NvmEvent.waitReady NvmUpdiP4.wait_nvm_ready_default_timeout_ms,
        NvmEvent.command NvmUpdiP4.NVMCMD_CHIP_ERASE,
        NvmEvent.waitReady NvmUpdiP4.wait_nvm_ready_default_timeout_ms], .error e)
    | .ok st =>
      ([NvmEvent.waitReady NvmUpdiP4.wait_nvm_ready_default_timeout_ms,
        NvmEvent.command NvmUpdiP4.NVMCMD_CHIP_ERASE,
        NvmEvent.waitReady NvmUpdiP4.wait_nvm_ready_default_timeout_ms,
        NvmEvent.command NvmUpdiP4.NVMCMD_NOCMD],
       if st then .ok () else
         .error (.serialUpdiNvmTimeout
           "Timeout waiting for NVM controller to be ready after chip erase"))

/-- nvmp5.py CTRLA commands. -/
def NvmUpdiP5.NVMCMD_NOCMD : Nat := 0x00

def NvmUpdiP5.NVMCMD_FLASH_PAGE_WRITE : Nat := 0x04

def NvmUpdiP5.NVMCMD_FLASH_PAGE_BUFFER_CLEAR : Nat := 0x0F

def NvmUpdiP5.NVMCMD_EEPROM_PAGE_ERASE_WRITE : Nat := 0x15

def NvmUpdiP5.NVMCMD_EEPROM_PAGE_BUFFER_CLEAR : Nat := 0x1F

def NvmUpdiP5.NVMCMD_CHIP_ERASE : Nat := 0x20

/-- nvmp5.py STATUS fields. -/
def NvmUpdiP5.STATUS_WRITE_ERROR_bm : Nat := 0x70

def NvmUpdiP5.STATUS_WRITE_ERROR_bp : Nat := 4

def NvmUpdiP5.STATUS_EEPROM_BUSY_bp : Nat := 0

def NvmUpdiP5.STATUS_FLASH_BUSY_bp : Nat := 1

/-- nvmp5.py wait_nvm_ready default argument timeout_ms=100. -/
def NvmUpdiP5.wait_nvm_ready_default_timeout_ms : Nat := 100

/-- nvmp5.py NvmUpdiP5.wait_nvm_ready: error bits raise
PymcuprogSerialUpdiNvmError with code = status >> 4; clear busy bits return
True; budget expiry returns False. -/
def NvmUpdiP5.wait_nvm_ready_poll : List Nat → Except PymcuprogException Bool
  | [] => .ok false
  | status :: rest =>
    if status &&& NvmUpdiP5.STATUS_WRITE_ERROR_bm ≠ 0 then
      .error (.serialUpdiNvmError "NVM error"
        (status >>> NvmUpdiP5.STATUS_WRITE_ERROR_bp))
    else if status &&& ((1 <<< NvmUpdiP5.STATUS_EEPROM_BUSY_bp) |||
        (1 <<< NvmUpdiP5.STATUS_FLASH_BUSY_bp)) = 0 then
      .ok true
    else
      NvmUpdiP5.wait_nvm_ready_poll rest

/-- nvmp5.py NvmUpdiP5.write_nvm: wait-ready, page-buffer clear command,
wait-ready, load the page buffer through the RW layer (word or byte access),
commit command, wait-ready, then NOCMD.  On the commit-wait timeout the
timeout exception is raised BEFORE the NOCMD write, so the commit command is
left in CTRLA on that path.  Parameters `nvmcommand` and
`erasebuffer_command` are the Python keyword arguments (their defaults are
supplied by the callers below); `w1`/`w2`/`w3` are the three waits' polls. -/
def NvmUpdiP5.write_nvm (address : Nat) (data : List Nat)
    (use_word_access : Bool) (nvmcommand erasebuffer_command : Nat)
    (w1 w2 w3 : List Nat) : List NvmEvent × Except PymcuprogException Unit :=
  match NvmUpdiP5.wait_nvm_ready_poll w1 with
  | .error e => ([NvmEvent.waitReady NvmUpdiP5.wait_nvm_ready_default_timeout_ms], .error e)
  | .ok false =>
    ([NvmEvent.waitReady NvmUpdiP5.wait_nvm_ready_default_timeout_ms],
     .error (.serialUpdiNvmTimeout
       "Timeout waiting for NVM controller to be ready before page buffer clear"))
  | .ok true =>
    match NvmUpdiP5.wait_nvm_ready_poll w2 with
    | .error e =>
      ([NvmEvent.waitReady NvmUpdiP5.wait_nvm_ready_default_timeout_ms,
        NvmEvent.command erasebuffer_command,
        NvmEvent.waitReady NvmUpdiP5.wait_nvm_ready_default_timeout_ms], .error e)
    | .ok false =>
      ([NvmEvent.waitReady NvmUpdiP5.wait_nvm_ready_default_timeout_ms,
        NvmEvent.command erasebuffer_command,
        NvmEvent.waitReady NvmUpdiP5.wait_nvm_ready_default_timeout_ms],
       .error (.serialUpdiNvmTimeout
         "Timeout waiting for NVM controller to be ready after page buffer clear"))
    | .ok true =>
      match NvmUpdiP5.wait_nvm_ready_poll w3 with
      | .error e =>
        ([NvmEvent.waitReady NvmUpdiP5.wait_nvm_ready_default_timeout_ms,
          NvmEvent.command erasebuffer_command,
          NvmEvent.waitReady NvmUpdiP5.wait_nvm_ready_default_timeout_ms,
          (if use_word_access then NvmEvent.writeDataWords address data
           else NvmEvent.writeData address data),
          NvmEvent.command nvmcommand,
          NvmEvent.waitReady NvmUpdiP5.wait_nvm_ready_default_timeout_ms], .error e)
      | .ok false =>
        ([NvmEvent.waitReady NvmUpdiP5.wait_nvm_ready_default_timeout_ms,
          NvmEvent.command erasebuffer_command,
          NvmEvent.waitReady NvmUpdiP5.wait_nvm_ready_default_timeout_ms,
          (if use_word_access then NvmEvent.writeDataWords address data
           else NvmEvent.writeData address data),
          NvmEvent.command nvmcommand,
          NvmEvent.waitReady NvmUpdiP5.wait_nvm_ready_default_timeout_ms],
         .error (.serialUpdiNvmTimeout
           "Timeout waiting for NVM controller to be ready after page write"))
      | .ok true =>
        ([NvmEvent.waitReady NvmUpdiP5.wait_nvm_ready_default_timeout_ms,
          NvmEvent.command erasebuffer_command,
          NvmEvent.waitReady NvmUpdiP5.wait_nvm_ready_default_timeout_ms,
          (if use_word_access then NvmEvent.writeDataWords address data
           else NvmEvent.writeData address data),
          NvmEvent.command nvmcommand,
          NvmEvent.waitReady NvmUpdiP5.wait_nvm_ready_default_timeout_ms,
          NvmEvent.command NvmUpdiP5.NVMCMD_NOCMD], .ok ())

/-- nvmp5.py NvmUpdiP5.write_flash: write_nvm with word access and the
default flash commands. -/
def NvmUpdiP5.write_flash (address : Nat) (data : List Nat)
    (w1 w2 w3 : List Nat) : List NvmEvent × Except PymcuprogException Unit :=
  NvmUpdiP5.write_nvm address data true NvmUpdiP5.NVMCMD_FLASH_PAGE_WRITE
    NvmUpdiP5.NVMCMD_FLASH_PAGE_BUFFER_CLEAR w1 w2 w3

/-- nvmp5.py NvmUpdiP5.write_eeprom: write_nvm with byte access and the
EEPROM page commands. -/
def NvmUpdiP5.write_eeprom (address : Nat) (data : List Nat)
    (w1 w2 w3 : List Nat) : List NvmEvent × Except PymcuprogException Unit :=
  NvmUpdiP5.write_nvm address data false NvmUpdiP5.NVMCMD_EEPROM_PAGE_ERASE_WRITE
    NvmUpdiP5.NVMCMD_EEPROM_PAGE_BUFFER_CLEAR w1 w2 w3

/-- serialupdi/nvm.py NvmUpdi.wait_nvm_ready: the legacy base-class wait uses
a hard-coded Timeout(10000), a 10 second budget. -/
def NvmUpdi.wait_nvm_ready_timeout_ms : Nat := 10000

/-- Modelled from the spec: the constants UPDI_NVMCTRL_STATUS,
UPDI_NVM_STATUS_WRITE_ERROR, UPDI_NVM_STATUS_EEPROM_BUSY and
UPDI_NVM_STATUS_FLASH_BUSY referenced by the legacy base class in
serialupdi/nvm.py are absent from serialupdi/constants.py; the spec's P:0
register map (section 4.4.1, the family the legacy driver targets) fixes the
STATUS bits as WRITE_ERROR=2, EEPROM_BUSY=1, FLASH_BUSY=0. -/
def UPDI_NVM_STATUS_WRITE_ERROR : Nat := 2

def UPDI_NVM_STATUS_EEPROM_BUSY : Nat := 1

def UPDI_NVM_STATUS_FLASH_BUSY : Nat := 0

/-- serialupdi/nvm.py NvmUpdi.wait_nvm_ready (the legacy base class): on an
error bit it returns False - it raises nothing - and on clear busy bits it
returns True; budget expiry also returns False. -/
def NvmUpdi.wait_nvm_ready_poll : List Nat → Bool
  | [] => false
  | status :: rest =>
    if status &&& (1 <<< UPDI_NVM_STATUS_WRITE_ERROR) ≠ 0 then
      false
    else if status &&& ((1 <<< UPDI_NVM_STATUS_EEPROM_BUSY) |||
        (1 <<< UPDI_NVM_STATUS_FLASH_BUSY)) = 0 then
      true
    else
      NvmUpdi.wait_nvm_ready_poll rest

/-- serialupdi/nvm.py NvmUpdiAvrV2.chip_erase - the P:2-family driver
present in src (AVR-DA and newer): wait-ready, chip-erase command,
wait-ready, return True.  It never writes NOCMD, on any path.  Both waits
are the inherited 10-second legacy NvmUpdi.wait_nvm_ready, and timeouts
raise Python's built-in Exception.  The command byte it writes,
constants.UPDI_V2_NVMCTRL_CTRLA_CHIP_ERASE, is absent from
serialupdi/constants.py, so it is the parameter `chip_erase_cmd` here; the
NOCMD-discipline facts proved below hold for every value of it. -/
def NvmUpdiAvrV2.chip_erase (chip_erase_cmd : Nat) (w1 w2 : List Nat) :
    List NvmEvent × Except PymcuprogException Bool :=
  if ¬ NvmUpdi.wait_nvm_ready_poll w1 then
    ([NvmEvent.waitReady NvmUpdi.wait_nvm_ready_timeout_ms],
     .error (.exception
       "Timeout waiting for NVM controller to be ready before chip erase"))
  else
    if ¬ NvmUpdi.wait_nvm_ready_poll w2 then
      ([NvmEvent.waitReady NvmUpdi.wait_nvm_ready_timeout_ms,
        NvmEvent.command chip_erase_cmd,
        NvmEvent.waitReady NvmUpdi.wait_nvm_ready_timeout_ms],
       .error (.exception
         "Timeout waiting for NVM controller to be ready after chip erase"))
    else
      ([NvmEvent.waitReady NvmUpdi.wait_nvm_ready_timeout_ms,
        NvmEvent.command chip_erase_cmd,
        NvmEvent.waitReady NvmUpdi.wait_nvm_ready_timeout_ms], .ok true)

/-- serialupdi/nvm.py NvmUpdiAvrV3.chip_erase - the P:3-family driver
present in src (AVR-EA): wait-ready, chip-erase command, wait-ready, then
NOCMD is written BEFORE the timeout check raises, so NOCMD follows the
command on both the success and the timeout path.  Waits are the inherited
10-second legacy wait; timeouts raise IOError.  The
constants.UPDI_V3_NVMCTRL_CTRLA_CHIP_ERASE / _NOCMD byte values are absent
from serialupdi/constants.py and are the parameters `chip_erase_cmd` /
`nocmd` here. -/
def NvmUpdiAvrV3.chip_erase (chip_erase_cmd nocmd : Nat) (w1 w2 : List Nat) :
    List NvmEvent × Except PymcuprogException Bool :=
  if ¬ NvmUpdi.wait_nvm_ready_poll w1 then
    ([NvmEvent.waitReady NvmUpdi.wait_nvm_ready_timeout_ms],
     .error (.ioError
       "Timeout waiting for NVM controller to be ready before chip erase"))
  else
    if NvmUpdi.wait_nvm_ready_poll w2 then
      ([NvmEvent.waitReady NvmUpdi.wait_nvm_ready_timeout_ms,
        NvmEvent.command chip_erase_cmd,
        NvmEvent.waitReady NvmUpdi.wait_nvm_ready_timeout_ms,
        NvmEvent.command nocmd], .ok true)
    else
      ([NvmEvent.waitReady NvmUpdi.wait_nvm_ready_timeout_ms,
        NvmEvent.command chip_erase_cmd,
        NvmEvent.waitReady NvmUpdi.wait_nvm_ready_timeout_ms,
        NvmEvent.command nocmd],
       .error (.ioError
         "Timeout waiting for NVM controller to be ready after chip erase"))

/-- serialupdi/constants.py control/status register indices and bits used by
the application layer. -/
def UPDI_CS_CTRLB : Nat := 0x03

def UPDI_ASI_KEY_STATUS : Nat := 0x07

def UPDI_ASI_RESET_REQ : Nat := 0x08

def UPDI_ASI_SYS_CTRLA : Nat := 0x0A

def UPDI_ASI_SYS_STATUS : Nat := 0x0B

def UPDI_ASI_KEY_STATUS_CHIPERASE : Nat := 3

def UPDI_ASI_KEY_STATUS_NVMPROG : Nat := 4

def UPDI_ASI_KEY_STATUS_UROWWRITE : Nat := 5

def UPDI_ASI_SYS_STATUS_NVMPROG : Nat := 3

def UPDI_ASI_SYS_STATUS_UROWPROG : Nat := 2

def UPDI_ASI_SYS_STATUS_LOCKSTATUS : Nat := 0

def UPDI_ASI_SYS_CTRLA_UROW_FINAL : Nat := 1

def UPDI_CTRLB_CCDETDIS_BIT : Nat := 3

def UPDI_CTRLB_UPDIDIS_BIT : Nat := 2

def UPDI_RESET_REQ_VALUE : Nat := 0x59

def UPDI_KEY_64 : Nat := 0x00

/-- constants.py UPDI_KEY_NVM = b"NVMProg " as byte values. -/
def UPDI_KEY_NVM : List Nat := [0x4E, 0x56, 0x4D, 0x50, 0x72, 0x6F, 0x67, 0x20]

/-- constants.py UPDI_KEY_CHIPERASE = b"NVMErase" as byte values. -/
def UPDI_KEY_CHIPERASE : List Nat := [0x4E, 0x56, 0x4D, 0x45, 0x72, 0x61, 0x73, 0x65]

/-- constants.py UPDI_KEY_UROW = b"NVMUs&te" as byte values. -/
def UPDI_KEY_UROW : List Nat := [0x4E, 0x56, 0x4D, 0x55, 0x73, 0x26, 0x74, 0x65]

/-- Application-layer actions recorded as trace events: control/status
writes, key transfers, RW data writes, and the busy-waits with their
millisecond budgets.  Control/status reads are inputs of the model (the
oracle values below), not events. -/
inductive AppEvent where
  | csWrite (address value : Nat)
  | keyWrite (size_code : Nat) (key : List Nat)
  | dataWrite (address : Nat) (data : List Nat)
  | waitUnlocked (timeout_ms : Nat)
  | waitUrowProg (timeout_ms : Nat) (wait_for_high : Bool)
  deriving DecidableEq, Repr

/-- application.py UpdiApplication.in_prog_mode: True when the NVMPROG bit of
ASI_SYS_STATUS is set, as a function of the value read. -/
def UpdiApplication.in_prog_mode (sys_status : Nat) : Bool :=
  if sys_status &&& (1 <<< UPDI_ASI_SYS_STATUS_NVMPROG) ≠ 0 then true
  else false

/-- application.py UpdiApplication.wait_unlocked: polls ASI_SYS_STATUS until
the LOCKSTATUS bit is clear (True) or the budget expires (False), as a
function of the values polled before the budget expires. -/
def UpdiApplication.wait_unlocked_poll : List Nat → Bool
  | [] => false
  | status :: rest =>
    if status &&& (1 <<< UPDI_ASI_SYS_STATUS_LOCKSTATUS) = 0 then true
    else UpdiApplication.wait_unlocked_poll rest

/-- application.py UpdiApplication.wait_urow_prog: polls ASI_SYS_STATUS until
the UROWPROG bit reaches the requested level or the budget expires. -/
def UpdiApplication.wait_urow_prog_poll (wait_for_high : Bool) :
    List Nat → Bool
  | [] => false
  | status :: rest =>
    if wait_for_high then
      if status &&& (1 <<< UPDI_ASI_SYS_STATUS_UROWPROG) ≠ 0 then true
      else UpdiApplication.wait_urow_prog_poll wait_for_high rest
    else
      if status &&& (1 <<< UPDI_ASI_SYS_STATUS_UROWPROG) = 0 then true
      else UpdiApplication.wait_urow_prog_poll wait_for_high rest

/-- application.py UpdiApplication.enter_progmode, as a function of the
values the device returns: `first_sys_status` is the ASI_SYS_STATUS read by
the initial in_prog_mode check, `key_status` the ASI_KEY_STATUS read after
the key transfer, `unlock_polls` the ASI_SYS_STATUS values polled by
wait_unlocked(100), and `final_sys_status` the ASI_SYS_STATUS read by the
final in_prog_mode check.  Returns the trace of writes/waits and the Python
result: True, or the raised exception. -/
def UpdiApplication.enter_progmode (first_sys_status key_status : Nat)
    (unlock_polls : List Nat) (final_sys_status : Nat) :
    List AppEvent × Except PymcuprogException Bool :=
  if UpdiApplication.in_prog_mode first_sys_status then ([], .ok true)
  else
    if key_status &&& (1 <<< UPDI_ASI_KEY_STATUS_NVMPROG) = 0 then
      ([AppEvent.csWrite UPDI_ASI_RESET_REQ UPDI_RESET_REQ_VALUE,
        AppEvent.keyWrite UPDI_KEY_64 UPDI_KEY_NVM],
       .error (.serialUpdi "Key not accepted"))
    else
      if UpdiApplication.wait_unlocked_poll unlock_polls then
        if UpdiApplication.in_prog_mode final_sys_status then
          ([AppEvent.csWrite UPDI_ASI_RESET_REQ UPDI_RESET_REQ_VALUE,
            AppEvent.keyWrite UPDI_KEY_64 UPDI_KEY_NVM,
            AppEvent.csWrite UPDI_ASI_RESET_REQ UPDI_RESET_REQ_VALUE,
            AppEvent.csWrite UPDI_ASI_RESET_REQ 0x00,
            AppEvent.waitUnlocked 100], .ok true)
        else
          ([AppEvent.csWrite UPDI_ASI_RESET_REQ UPDI_RESET_REQ_VALUE,
            AppEvent.keyWrite UPDI_KEY_64 UPDI_KEY_NVM,
            AppEvent.csWrite UPDI_ASI_RESET_REQ UPDI_RESET_REQ_VALUE,
            AppEvent.csWrite UPDI_ASI_RESET_REQ 0x00,
            AppEvent.waitUnlocked 100],
           .error (.serialUpdi "Failed to enter NVM programming mode"))
      else
        ([AppEvent.csWrite UPDI_ASI_RESET_REQ UPDI_RESET_REQ_VALUE,
          AppEvent.keyWrite UPDI_KEY_64 UPDI_KEY_NVM,
          AppEvent.csWrite UPDI_ASI_RESET_REQ UPDI_RESET_REQ_VALUE,
          AppEvent.csWrite UPDI_ASI_RESET_REQ 0x00,
          AppEvent.waitUnlocked 100],
         .error (.serialUpdiLocked
           "Failed to enter NVM programming mode: device is locked"))

/-- application.py UpdiApplication.unlock (unlock by chip erase): key
transfer, key-status check, reset cycle, wait_unlocked(500). -/
def UpdiApplication.unlock (key_status : Nat) (unlock_polls : List Nat) :
    List AppEvent × Except PymcuprogException Unit :=
  if key_status &&& (1 <<< UPDI_ASI_KEY_STATUS_CHIPERASE) = 0 then
    ([AppEvent.keyWrite UPDI_KEY_64 UPDI_KEY_CHIPERASE],
     .error (.serialUpdi "Key not accepted"))
  else
    if UpdiApplication.wait_unlocked_poll unlock_polls then
      ([AppEvent.keyWrite UPDI_KEY_64 UPDI_KEY_CHIPERASE,
        AppEvent.csWrite UPDI_ASI_RESET_REQ UPDI_RESET_REQ_VALUE,
        AppEvent.csWrite UPDI_ASI_RESET_REQ 0x00,
        AppEvent.waitUnlocked 500], .ok ())
    else
      ([AppEvent.keyWrite UPDI_KEY_64 UPDI_KEY_CHIPERASE,
        AppEvent.csWrite UPDI_ASI_RESET_REQ UPDI_RESET_REQ_VALUE,
        AppEvent.csWrite UPDI_ASI_RESET_REQ 0x00,
        AppEvent.waitUnlocked 500],
       .error (.serialUpdi "Failed to chip erase using key"))

/-- application.py UpdiApplication.write_user_row_locked_device: key
transfer, key-status check, reset cycle, wait_urow_prog(500, high), RW data
write, ASI_SYS_CTRLA finalise write, wait_urow_prog(500, low), key-status
clear, reset cycle. -/
def UpdiApplication.write_user_row_locked_device (key_status : Nat)
    (polls_high polls_low : List Nat) (address : Nat) (data : List Nat) :
    List AppEvent × Except PymcuprogException Unit :=
  if key_status &&& (1 <<< UPDI_ASI_KEY_STATUS_UROWWRITE) = 0 then
    ([AppEvent.keyWrite UPDI_KEY_64 UPDI_KEY_UROW],
     .error (.serialUpdi "Key not accepted"))
  else
    if ¬ UpdiApplication.wait_urow_prog_poll true polls_high then
      ([AppEvent.keyWrite UPDI_KEY_64 UPDI_KEY_UROW,
        AppEvent.csWrite UPDI_ASI_RESET_REQ UPDI_RESET_REQ_VALUE,
        AppEvent.csWrite UPDI_ASI_RESET_REQ 0x00,
        AppEvent.waitUrowProg 500 true],
       .error (.serialUpdi "Failed to enter UROW write mode using key"))
    else
      if ¬ UpdiApplication.wait_urow_prog_poll false polls_low then
        ([AppEvent.keyWrite UPDI_KEY_64 UPDI_KEY_UROW,
          AppEvent.csWrite UPDI_ASI_RESET_REQ UPDI_RESET_REQ_VALUE,
          AppEvent.csWrite UPDI_ASI_RESET_REQ 0x00,
          AppEvent.waitUrowProg 500 true,
          AppEvent.dataWrite address data,
          AppEvent.csWrite UPDI_ASI_SYS_CTRLA
            ((1 <<< UPDI_ASI_SYS_CTRLA_UROW_FINAL) |||
             (1 <<< UPDI_CTRLB_CCDETDIS_BIT)),
          AppEvent.waitUrowProg 500 false,
          AppEvent.csWrite UPDI_ASI_RESET_REQ UPDI_RESET_REQ_VALUE,
          AppEvent.csWrite UPDI_ASI_RESET_REQ 0x00],
         .error (.serialUpdi "Failed to exit UROW write mode"))
      else
        ([AppEvent.keyWrite UPDI_KEY_64 UPDI_KEY_UROW,
          AppEvent.csWrite UPDI_ASI_RESET_REQ UPDI_RESET_REQ_VALUE,
          AppEvent.csWrite UPDI_ASI_RESET_REQ 0x00,
          AppEvent.waitUrowProg 500 true,
          AppEvent.dataWrite address data,
          AppEvent.csWrite UPDI_ASI_SYS_CTRLA
            ((1 <<< UPDI_ASI_SYS_CTRLA_UROW_FINAL) |||
             (1 <<< UPDI_CTRLB_CCDETDIS_BIT)),
          AppEvent.waitUrowProg 500 false,
          AppEvent.csWrite UPDI_ASI_KEY_STATUS
            ((1 <<< UPDI_ASI_KEY_STATUS_UROWWRITE) |||
             (1 <<< UPDI_CTRLB_CCDETDIS_BIT)),
          AppEvent.csWrite UPDI_ASI_RESET_REQ UPDI_RESET_REQ_VALUE,
          AppEvent.csWrite UPDI_ASI_RESET_REQ 0x00], .ok ())

/-- The fields decode_sib extracts from a SIB, as raw byte lists. -/
structure SibInfo where
  family : List Nat
  nvm : List Nat
  ocd : List Nat
  osc : List Nat
  extra : List Nat
  deriving DecidableEq, Repr

/-- Python bytes.strip / str.strip whitespace set. -/
def pyIsSpace (b : Nat) : Bool :=
  b = 32 || b = 9 || b = 10 || b = 13 || b = 11 || b = 12

/-- Python strip(): drop whitespace from both ends. -/
def pyStrip (s : List Nat) : List Nat :=
  ((s.dropWhile pyIsSpace).reverse.dropWhile pyIsSpace).reverse

/-- Python slice s[a:b] for 0 ≤ a ≤ b. -/
def pySlice (s : List Nat) (a b : Nat) : List Nat :=
  (s.take b).drop a

/-- Python s.split(chr(58))[1]: the segment after the first colon and before
the next; none when the string holds no colon (where Python raises
IndexError). -/
def splitColonSecond (s : List Nat) : Option (List Nat) :=
  match s.dropWhile (fun b => b ≠ 58) with
  | [] => none
  | _ :: rest => some (rest.takeWhile (fun b => b ≠ 58))

/-- application.py decode_sib: returns None (here `.ok none`) when the SIB
holds a non-ASCII byte or is shorter than 19 bytes; otherwise parses the
fixed-width fields.  A colon missing from the NVM or OCD field makes the
Python raise IndexError (here `.error .indexError`). -/
def decode_sib (sib : List Nat) : Except PymcuprogException (Option SibInfo) :=
  if sib.any (fun b => 128 ≤ b) then .ok none
  else if sib.length < 19 then .ok none
  else
    match splitColonSecond (pyStrip (pySlice sib 8 11)) with
    | none => .error .indexError
    | some nvmField =>
      match splitColonSecond (pyStrip (pySlice sib 11 14)) with
      | none => .error .indexError
      | some ocdField =>
        .ok (some { family := pyStrip (sib.take 7), nvm := nvmField,
                    ocd := ocdField, osc := pyStrip (pySlice sib 15 19),
                    extra := pyStrip (sib.drop 19) })

/-- application.py UpdiApplication.read_device_info, restricted to its SIB
acquisition logic: read the SIB, decode it; if the decode returns None, send
one double break and retry once; a second None is fatal.  `sib1`/`sib2` are
the results of the two read_sib calls (the second consulted only on retry);
the first component counts the double breaks sent.  The rest of
read_device_info (variant dispatch and logging reads) sends no double break
and is not modelled. -/
def UpdiApplication.read_device_info_sib (sib1 sib2 : List Nat) :
    Nat × Except PymcuprogException SibInfo :=
  match decode_sib sib1 with
  | .error e => (0, .error e)
  | .ok (some info) => (0, .ok info)
  | .ok none =>
    match decode_sib sib2 with
    | .error e => (1, .error e)
    | .ok (some info) => (1, .ok info)
    | .ok none => (1, .error (.serialUpdi "Failed to read device info."))

/-- pyedbglib binary.unpack_be24 (external helper): big-endian 24-bit value
of the first three bytes; nvmserialupdi.py's own comment records that the
target sends the ID big-endian. -/
def unpack_be24 (data : List Nat) : Nat :=
  ((data.getD 0 0) <<< 16) ||| ((data.getD 1 0) <<< 8) ||| (data.getD 2 0)

/-- nvmserialupdi.py NvmAccessProviderSerial.read_device_id, restricted to
its signature handling: `sig` is the 3-byte RW read at the target's
sigrow_address.  A wrong read length is a session error; the big-endian
value of the bytes is compared with the expected device id and a mismatch is
a session error (message elided of its formatted values); on match the bytes
are returned reversed (little-endian).  The revision and serial-number reads
that follow are logging only and not modelled. -/
def NvmAccessProviderSerial.read_device_id_check (expected_device_id : Nat)
    (sig : List Nat) : Except PymcuprogException (List Nat) :=
  if sig.length ≠ 3 then .error (.sessionError "Unable to read device ID")
  else if ¬ (expected_device_id = unpack_be24 sig) then
    .error (.sessionError "Device ID mismatch")
  else
    .ok [sig.getD 2 0, sig.getD 1 0, sig.getD 0 0]

/-- application.py UpdiApplication.write_data: its body is
`return self.write_data(address, data)` - a self-call with unchanged
arguments instead of a delegation to self.readwrite.write_data.  The fuel
argument models Python's recursion limit; `none` is the RecursionError; a
normal return would carry the DL trace of the serial I/O performed. -/
def UpdiApplication.write_data : Nat → Nat → List Nat → Option (List DLEvent)
  | 0, _, _ => none
  | fuel + 1, address, data => UpdiApplication.write_data fuel address data

/-- Every run of the write_data chunk loop is a sequence of pointer-set +
REPEAT + store blocks whose chunks are non-empty, at most 256 bytes each,
and concatenate to the input data. -/
theorem write_data_chunks_spec (fuel : Nat) :
    ∀ (data : List Nat) (address : Nat), data.length ≤ fuel →
      ∃ cs : List (List Nat),
        UpdiReadWrite.write_data_chunks address data = chunkTrace address cs ∧
        cs.flatten = data ∧ ∀ c ∈ cs, 0 < c.length ∧ c.length ≤ 256 := by
  induction fuel with
  | zero =>
    intro data address h
    have hd : data = [] := List.length_eq_zero.mp (Nat.le_zero.mp h)
    subst hd
    refine ⟨[], ?_, rfl, by simp⟩
    unfold UpdiReadWrite.write_data_chunks
    simp [chunkTrace]
  | succ n ih =>
    intro data address h
    by_cases hd : data = []
    · subst hd
      refine ⟨[], ?_, rfl, by simp⟩
      unfold UpdiReadWrite.write_data_chunks
      simp [chunkTrace]
    · have hpos : 0 < data.length := List.length_pos.mpr hd
      have hM : UPDI_MAX_REPEAT_SIZE = 256 := rfl
      have hminpos : 0 < min data.length UPDI_MAX_REPEAT_SIZE :=
        lt_min hpos (by norm_num [UPDI_MAX_REPEAT_SIZE])
      have hminle : min data.length UPDI_MAX_REPEAT_SIZE ≤ data.length :=
        Nat.min_le_left _ _
      have hdrop : (data.drop (min data.length UPDI_MAX_REPEAT_SIZE)).length ≤ n := by
        simp only [List.length_drop]
        omega
      obtain ⟨cs, h1, h2, h3⟩ :=
        ih (data.drop (min data.length UPDI_MAX_REPEAT_SIZE))
          (address + min data.length UPDI_MAX_REPEAT_SIZE) hdrop
      have hlen : (data.take (min data.length UPDI_MAX_REPEAT_SIZE)).length =
          min data.length UPDI_MAX_REPEAT_SIZE := by
        rw [List.length_take]
        exact min_eq_left hminle
      refine ⟨data.take (min data.length UPDI_MAX_REPEAT_SIZE) :: cs, ?_, ?_, ?_⟩
      · unfold UpdiReadWrite.write_data_chunks
        rw [dif_neg hd]
        simp only [chunkTrace, hlen, h1]
      · rw [List.flatten_cons, h2]
        exact List.take_append_drop _ data
      · intro c hc
        rcases List.mem_cons.mp hc with hc1 | hcs
        · subst hc1
          rw [hlen]
          have hr := Nat.min_le_right data.length UPDI_MAX_REPEAT_SIZE
          constructor
          · exact hminpos
          · omega
        · exact h3 c hcs

/-- C1 counterexample: the claim says read_data with more than 256 bytes
completes by issuing several pointer-set/REPEAT/load bursts; the code
instead raises PymcuprogSerialUpdiProtocolError, here at size 257. -/
theorem claim_C1_counterexample :
    UpdiReadWrite.read_data 0x4000 257 =
      .error (.serialUpdiProtocol "UPDI cannot read 257 bytes in one go") := by
  rfl

/-- C1 (amended): transfers of more than 256 units through the RW layer are
split into chunks of at most 256 units, each chunk preceded by its own
pointer-set and REPEAT, for WRITES (write_data); reads do not split:
read_data with more than 256 bytes raises a protocol error instead. -/
theorem claim_C1_amended (address n : Nat) (data : List Nat)
    (hd : 256 < data.length) (hn : 256 < n) :
    (∃ cs : List (List Nat),
        UpdiReadWrite.write_data address data = chunkTrace address cs ∧
        cs.flatten = data ∧ (∀ c ∈ cs, 0 < c.length ∧ c.length ≤ 256) ∧
        2 ≤ cs.length) ∧
    UpdiReadWrite.read_data address n =
      .error (.serialUpdiProtocol
        ("UPDI cannot read " ++ toString n ++ " bytes in one go")) := by
  constructor
  · have hwd : UpdiReadWrite.write_data address data =
        UpdiReadWrite.write_data_chunks address data := by
      rcases data with _ | ⟨d0, _ | ⟨d1, _ | ⟨d2, rest⟩⟩⟩
      · simp at hd
      · simp at hd
      · simp at hd
      · rfl
    obtain ⟨cs, h1, h2, h3⟩ :=
      write_data_chunks_spec data.length data address le_rfl
    refine ⟨cs, hwd.trans h1, h2, h3, ?_⟩
    rcases cs with _ | ⟨c, _ | ⟨c2, cs2⟩⟩
    · rw [← h2] at hd
      simp at hd
    · rw [← h2] at hd
      have hc := h3 c (by simp)
      simp only [List.flatten_cons, List.flatten_nil, List.append_nil] at hd
      omega
    · simp
  · have hM : UPDI_MAX_REPEAT_SIZE = 256 := rfl
    unfold UpdiReadWrite.read_data
    rw [if_pos (by omega)]

/-- C1 witness: a concrete 257-byte write is chunked while a 257-byte read
errors. -/
theorem claim_C1_witness :
    256 < (List.replicate 257 171).length ∧ 256 < 257 ∧
    ((∃ cs : List (List Nat),
        UpdiReadWrite.write_data 0 (List.replicate 257 171) = chunkTrace 0 cs ∧
        cs.flatten = List.replicate 257 171 ∧
        (∀ c ∈ cs, 0 < c.length ∧ c.length ≤ 256) ∧ 2 ≤ cs.length) ∧
      UpdiReadWrite.read_data 0 257 =
        .error (.serialUpdiProtocol
          ("UPDI cannot read " ++ toString 257 ++ " bytes in one go"))) :=
  ⟨by rw [List.length_replicate]; norm_num, by norm_num,
   claim_C1_amended 0 257 (List.replicate 257 171)
     (by rw [List.length_replicate]; norm_num) (by norm_num)⟩

/-- Every wait in NvmUpdiP0.chip_erase carries the 100 ms default budget. -/
theorem p0_chip_erase_wait_budgets (w1 w2 : List Nat) (t : Nat)
    (ht : NvmEvent.waitReady t ∈ (NvmUpdiP0.chip_erase w1 w2).1) : t = 100 := by
  unfold NvmUpdiP0.chip_erase at ht
  split at ht
  · simp [NvmUpdiP0.wait_nvm_ready_default_timeout_ms] at ht
    omega
  · simp [NvmUpdiP0.wait_nvm_ready_default_timeout_ms] at ht
    omega
  · split at ht <;>
      simp [NvmUpdiP0.wait_nvm_ready_default_timeout_ms] at ht <;>
      omega

/-- Every wait in NvmUpdiP4.chip_erase carries the 100 ms default budget. -/
theorem p4_chip_erase_wait_budgets (w1 w2 : List Nat) (t : Nat)
    (ht : NvmEvent.waitReady t ∈ (NvmUpdiP4.chip_erase w1 w2).1) : t = 100 := by
  unfold NvmUpdiP4.chip_erase at ht
  split at ht
  · simp [NvmUpdiP4.wait_nvm_ready_default_timeout_ms] at ht
    omega
  · simp [NvmUpdiP4.wait_nvm_ready_default_timeout_ms] at ht
    omega
  · split at ht <;>
      simp [NvmUpdiP4.wait_nvm_ready_default_timeout_ms] at ht <;>
      omega

/-- Every wait in NvmUpdiP5.write_nvm carries the 100 ms default budget. -/
theorem p5_write_nvm_wait_budgets (address : Nat) (data : List Nat)
    (use_word_access : Bool) (nvmcommand erasebuffer_command : Nat)
    (w1 w2 w3 : List Nat) (t : Nat)
    (ht : NvmEvent.waitReady t ∈ (NvmUpdiP5.write_nvm address data
      use_word_access nvmcommand erasebuffer_command w1 w2 w3).1) : t = 100 := by
  unfold NvmUpdiP5.write_nvm at ht
  split at ht
  · simp [NvmUpdiP5.wait_nvm_ready_default_timeout_ms] at ht
    omega
  · simp [NvmUpdiP5.wait_nvm_ready_default_timeout_ms] at ht
    omega
  · split at ht
    · simp [NvmUpdiP5.wait_nvm_ready_default_timeout_ms] at ht
      omega
    · simp [NvmUpdiP5.wait_nvm_ready_default_timeout_ms] at ht
      omega
    · split at ht <;> split at ht <;>
        simp [NvmUpdiP5.wait_nvm_ready_default_timeout_ms] at ht <;>
        tauto

/-- Every wait in UpdiApplication.unlock carries the 500 ms budget. -/
theorem unlock_wait_budgets (key_status : Nat) (unlock_polls : List Nat)
    (t : Nat)
    (ht : AppEvent.waitUnlocked t ∈
      (UpdiApplication.unlock key_status unlock_polls).1) : t = 500 := by
  unfold UpdiApplication.unlock at ht
  split at ht
  · simp at ht
  · split at ht <;> simp at ht <;> omega

/-- Every wait in UpdiApplication.write_user_row_locked_device carries the
500 ms budget. -/
theorem urow_wait_budgets (key_status : Nat) (polls_high polls_low : List Nat)
    (address : Nat) (data : List Nat) (t : Nat) (b : Bool)
    (ht : AppEvent.waitUrowProg t b ∈
      (UpdiApplication.write_user_row_locked_device key_status polls_high
        polls_low address data).1) : t = 500 := by
  unfold UpdiApplication.write_user_row_locked_device at ht
  split at ht
  · simp at ht
  · split at ht
    · simp at ht
      omega
    · split at ht <;> simp at ht <;> rcases ht with ht | ht <;> omega

/-- C2 counterexample: in NvmUpdiP0.chip_erase the wait following the
CHIP_ERASE command runs with a 100 ms budget, not the 10-second budget the
claim assigns to it; no 10-second wait occurs. -/
theorem claim_C2_counterexample :
    NvmUpdiP0.chip_erase [0] [0] =
      ([NvmEvent.waitReady 100, NvmEvent.command 5, NvmEvent.waitReady 100],
       .ok ()) ∧
    NvmEvent.waitReady 10000 ∉ (NvmUpdiP0.chip_erase [0] [0]).1 := by
  constructor
  · rfl
  · decide

/-- C2 (amended): the P:0/P:4/P:5 drivers run every wait_nvm_ready call,
including the waits around chip erase, with the default 100 ms budget; only
the legacy base-class NvmUpdi.wait_nvm_ready uses a 10-second budget (for
all operations); the unlock and user-row-mode waits use 500 ms. -/
theorem claim_C2_amended (w1 w2 w3 : List Nat) (address : Nat)
    (data : List Nat) (use_word_access : Bool)
    (nvmcommand erasebuffer_command : Nat) (key_status : Nat)
    (unlock_polls polls_high polls_low : List Nat) (udata : List Nat) :
    (∀ t, NvmEvent.waitReady t ∈ (NvmUpdiP0.chip_erase w1 w2).1 → t = 100) ∧
    (∀ t, NvmEvent.waitReady t ∈ (NvmUpdiP4.chip_erase w1 w2).1 → t = 100) ∧
    (∀ t, NvmEvent.waitReady t ∈ (NvmUpdiP5.write_nvm address data
        use_word_access nvmcommand erasebuffer_command w1 w2 w3).1 → t = 100) ∧
    NvmUpdi.wait_nvm_ready_timeout_ms = 10000 ∧
    (∀ t, AppEvent.waitUnlocked t ∈
        (UpdiApplication.unlock key_status unlock_polls).1 → t = 500) ∧
    (∀ t b, AppEvent.waitUrowProg t b ∈
        (UpdiApplication.write_user_row_locked_device key_status polls_high
          polls_low address udata).1 → t = 500) := by
  refine ⟨?_, ?_, ?_, rfl, ?_, ?_⟩
  · intro t ht
    exact p0_chip_erase_wait_budgets w1 w2 t ht
  · intro t ht
    exact p4_chip_erase_wait_budgets w1 w2 t ht
  · intro t ht
    exact p5_write_nvm_wait_budgets address data use_word_access nvmcommand
      erasebuffer_command w1 w2 w3 t ht
  · intro t ht
    exact unlock_wait_budgets key_status unlock_polls t ht
  · intro t b ht
    exact urow_wait_budgets key_status polls_high polls_low address udata t b ht

/-- C2 witness: the amended claim applied to a concrete successful P:0 chip
erase. -/
theorem claim_C2_witness :
    NvmEvent.waitReady 100 ∈ (NvmUpdiP0.chip_erase [0] [0]).1 ∧ (100 : Nat) = 100 :=
  ⟨by decide,
   (claim_C2_amended [0] [0] [] 0 [] true 0 0 0 [] [] [] []).1 100 (by decide)⟩

/-- If the P:4 wait polls busy, error-free statuses and then one with error
bits, it raises the NVM error decoded from that status. -/
theorem p4_wait_error_first (pre post : List Nat) (s : Nat)
    (hpre : ∀ x ∈ pre, x &&& NvmUpdiP4.STATUS_WRITE_ERROR_bm = 0 ∧
      x &&& ((1 <<< NvmUpdiP4.STATUS_EEPROM_BUSY_bp) |||
        (1 <<< NvmUpdiP4.STATUS_FLASH_BUSY_bp)) ≠ 0)
    (hs : s &&& NvmUpdiP4.STATUS_WRITE_ERROR_bm ≠ 0) :
    NvmUpdiP4.wait_nvm_ready_poll (pre ++ s :: post) =
      .error (.serialUpdiNvmError "NVM error"
        (s >>> NvmUpdiP4.STATUS_WRITE_ERROR_bp)) := by
  induction pre with
  | nil =>
    rw [List.nil_append]
    unfold NvmUpdiP4.wait_nvm_ready_poll
    rw [if_pos hs]
  | cons x xs ih =>
    have hx := hpre x (by simp)
    rw [List.cons_append]
    unfold NvmUpdiP4.wait_nvm_ready_poll
    rw [if_neg (not_not_intro hx.1), if_neg hx.2]
    exact ih (fun y hy => hpre y (by simp [hy]))

/-- P:5 version of the first-error lemma. -/
theorem p5_wait_error_first (pre post : List Nat) (s : Nat)
    (hpre : ∀ x ∈ pre, x &&& NvmUpdiP5.STATUS_WRITE_ERROR_bm = 0 ∧
      x &&& ((1 <<< NvmUpdiP5.STATUS_EEPROM_BUSY_bp) |||
        (1 <<< NvmUpdiP5.STATUS_FLASH_BUSY_bp)) ≠ 0)
    (hs : s &&& NvmUpdiP5.STATUS_WRITE_ERROR_bm ≠ 0) :
    NvmUpdiP5.wait_nvm_ready_poll (pre ++ s :: post) =
      .error (.serialUpdiNvmError "NVM error"
        (s >>> NvmUpdiP5.STATUS_WRITE_ERROR_bp)) := by
  induction pre with
  | nil =>
    rw [List.nil_append]
    unfold NvmUpdiP5.wait_nvm_ready_poll
    rw [if_pos hs]
  | cons x xs ih =>
    have hx := hpre x (by simp)
    rw [List.cons_append]
    unfold NvmUpdiP5.wait_nvm_ready_poll
    rw [if_neg (not_not_intro hx.1), if_neg hx.2]
    exact ih (fun y hy => hpre y (by simp [hy]))

/-- P:0 version of the first-error lemma: the raised NVM error carries the
fixed code 1. -/
theorem p0_wait_error_first (pre post : List Nat) (s : Nat)
    (hpre : ∀ x ∈ pre, x &&& (1 <<< NvmUpdiP0.STATUS_WRITE_ERROR_bp) = 0 ∧
      x &&& ((1 <<< NvmUpdiP0.STATUS_EEPROM_BUSY_bp) |||
        (1 <<< NvmUpdiP0.STATUS_FLASH_BUSY_bp)) ≠ 0)
    (hs : s &&& (1 <<< NvmUpdiP0.STATUS_WRITE_ERROR_bp) ≠ 0) :
    NvmUpdiP0.wait_nvm_ready_poll (pre ++ s :: post) =
      .error (.serialUpdiNvmError "NVM error" 1) := by
  induction pre with
  | nil =>
    rw [List.nil_append]
    unfold NvmUpdiP0.wait_nvm_ready_poll
    rw [if_pos hs]
  | cons x xs ih =>
    have hx := hpre x (by simp)
    rw [List.cons_append]
    unfold NvmUpdiP0.wait_nvm_ready_poll
    rw [if_neg (not_not_intro hx.1), if_neg hx.2]
    exact ih (fun y hy => hpre y (by simp [hy]))

/-- Legacy base-class version of the first-error lemma: the wait returns
False; it raises nothing. -/
theorem base_wait_error_first (pre post : List Nat) (s : Nat)
    (hpre : ∀ x ∈ pre, x &&& (1 <<< UPDI_NVM_STATUS_WRITE_ERROR) = 0 ∧
      x &&& ((1 <<< UPDI_NVM_STATUS_EEPROM_BUSY) |||
        (1 <<< UPDI_NVM_STATUS_FLASH_BUSY)) ≠ 0)
    (hs : s &&& (1 <<< UPDI_NVM_STATUS_WRITE_ERROR) ≠ 0) :
    NvmUpdi.wait_nvm_ready_poll (pre ++ s :: post) = false := by
  induction pre with
  | nil =>
    rw [List.nil_append]
    unfold NvmUpdi.wait_nvm_ready_poll
    rw [if_pos hs]
  | cons x xs ih =>
    have hx := hpre x (by simp)
    rw [List.cons_append]
    unfold NvmUpdi.wait_nvm_ready_poll
    rw [if_neg (not_not_intro hx.1), if_neg hx.2]
    exact ih (fun y hy => hpre y (by simp [hy]))

/-- C3 counterexample: the legacy base-class NvmUpdi.wait_nvm_ready
(serialupdi/nvm.py) observes STATUS value 4 - the WRITE_ERROR bit set - and
returns False instead of raising PymcuprogSerialUpdiNvmError; its Bool
return type carries no error code at all, so operations built on it fail
with a timeout message, not the NVM-error kind the claim requires. -/
theorem claim_C3_counterexample :
    NvmUpdi.wait_nvm_ready_poll [4] = false := by decide

/-- C3 (amended): when wait_nvm_ready first observes the STATUS error bits,
the P:4 and P:5 drivers raise PymcuprogSerialUpdiNvmError with the code
status >> 4 decoded from the STATUS value just read, and the P:0 driver
raises it with the fixed code 1; the legacy base-class NvmUpdi wait instead
returns False without raising, so those operations do not fail with the
NVM-error kind. -/
theorem claim_C3_amended (pre post : List Nat) (s : Nat) :
    ((∀ x ∈ pre, x &&& NvmUpdiP4.STATUS_WRITE_ERROR_bm = 0 ∧
        x &&& ((1 <<< NvmUpdiP4.STATUS_EEPROM_BUSY_bp) |||
          (1 <<< NvmUpdiP4.STATUS_FLASH_BUSY_bp)) ≠ 0) →
      s &&& NvmUpdiP4.STATUS_WRITE_ERROR_bm ≠ 0 →
      NvmUpdiP4.wait_nvm_ready_poll (pre ++ s :: post) =
        .error (.serialUpdiNvmError "NVM error"
          (s >>> NvmUpdiP4.STATUS_WRITE_ERROR_bp))) ∧
    ((∀ x ∈ pre, x &&& NvmUpdiP5.STATUS_WRITE_ERROR_bm = 0 ∧
        x &&& ((1 <<< NvmUpdiP5.STATUS_EEPROM_BUSY_bp) |||
          (1 <<< NvmUpdiP5.STATUS_FLASH_BUSY_bp)) ≠ 0) →
      s &&& NvmUpdiP5.STATUS_WRITE_ERROR_bm ≠ 0 →
      NvmUpdiP5.wait_nvm_ready_poll (pre ++ s :: post) =
        .error (.serialUpdiNvmError "NVM error"
          (s >>> NvmUpdiP5.STATUS_WRITE_ERROR_bp))) ∧
    ((∀ x ∈ pre, x &&& (1 <<< NvmUpdiP0.STATUS_WRITE_ERROR_bp) = 0 ∧
        x &&& ((1 <<< NvmUpdiP0.STATUS_EEPROM_BUSY_bp) |||
          (1 <<< NvmUpdiP0.STATUS_FLASH_BUSY_bp)) ≠ 0) →
      s &&& (1 <<< NvmUpdiP0.STATUS_WRITE_ERROR_bp) ≠ 0 →
      NvmUpdiP0.wait_nvm_ready_poll (pre ++ s :: post) =
        .error (.serialUpdiNvmError "NVM error" 1)) ∧
    ((∀ x ∈ pre, x &&& (1 <<< UPDI_NVM_STATUS_WRITE_ERROR) = 0 ∧
        x &&& ((1 <<< UPDI_NVM_STATUS_EEPROM_BUSY) |||
          (1 <<< UPDI_NVM_STATUS_FLASH_BUSY)) ≠ 0) →
      s &&& (1 <<< UPDI_NVM_STATUS_WRITE_ERROR) ≠ 0 →
      NvmUpdi.wait_nvm_ready_poll (pre ++ s :: post) = false) :=
  ⟨fun h1 h2 => p4_wait_error_first pre post s h1 h2,
   fun h1 h2 => p5_wait_error_first pre post s h1 h2,
   fun h1 h2 => p0_wait_error_first pre post s h1 h2,
   fun h1 h2 => base_wait_error_first pre post s h1 h2⟩

/-- C3 witness: STATUS value 0x74 has both the P:4/P:5 error field (0x70)
and the P:0/legacy error bit (bit 2) set. -/
theorem claim_C3_witness :
    NvmUpdiP4.wait_nvm_ready_poll ([] ++ 0x74 :: []) =
      .error (.serialUpdiNvmError "NVM error" 7) ∧
    NvmUpdiP5.wait_nvm_ready_poll ([] ++ 0x74 :: []) =
      .error (.serialUpdiNvmError "NVM error" 7) ∧
    NvmUpdiP0.wait_nvm_ready_poll ([] ++ 0x74 :: []) =
      .error (.serialUpdiNvmError "NVM error" 1) ∧
    NvmUpdi.wait_nvm_ready_poll ([] ++ 0x74 :: []) = false :=
  ⟨(claim_C3_amended [] [] 0x74).1 (by simp) (by decide),
   (claim_C3_amended [] [] 0x74).2.1 (by simp) (by decide),
   (claim_C3_amended [] [] 0x74).2.2.1 (by simp) (by decide),
   (claim_C3_amended [] [] 0x74).2.2.2 (by simp) (by decide)⟩

/-- Any exception the P:4 wait raises is the NVM-error kind. -/
theorem p4_wait_error_kind (w : List Nat) (e : PymcuprogException)
    (h : NvmUpdiP4.wait_nvm_ready_poll w = .error e) :
    ∃ c, e = .serialUpdiNvmError "NVM error" c := by
  induction w with
  | nil => simp [NvmUpdiP4.wait_nvm_ready_poll] at h
  | cons x xs ih =>
    unfold NvmUpdiP4.wait_nvm_ready_poll at h
    split at h
    · cases h
      exact ⟨_, rfl⟩
    · split at h
      · simp at h
      · exact ih h

/-- Any exception the P:5 wait raises is the NVM-error kind. -/
theorem p5_wait_error_kind (w : List Nat) (e : PymcuprogException)
    (h : NvmUpdiP5.wait_nvm_ready_poll w = .error e) :
    ∃ c, e = .serialUpdiNvmError "NVM error" c := by
  induction w with
  | nil => simp [NvmUpdiP5.wait_nvm_ready_poll] at h
  | cons x xs ih =>
    unfold NvmUpdiP5.wait_nvm_ready_poll at h
    split at h
    · cases h
      exact ⟨_, rfl⟩
    · split at h
      · simp at h
      · exact ih h

/-- C4 counterexample, two independent refutations: (i) on the P:5 flash
write whose commit wait times out, the FLASH_PAGE_WRITE command is written
to CTRLA and the operation raises the timeout WITHOUT a following NOCMD,
contradicting the claim's "including on the timeout/error exit paths";
(ii) the P:2-family driver in src, NvmUpdiAvrV2.chip_erase, completes a
SUCCESSFUL chip erase (here with command byte 0x20 and immediately-ready
polls) with the chip-erase command as the only CTRLA write ever - no NOCMD
even on success. -/
theorem claim_C4_counterexample :
    commandsOf (NvmUpdiP5.write_flash 0x8000 [1, 2] [0] [0] []).1 =
      [NvmUpdiP5.NVMCMD_FLASH_PAGE_BUFFER_CLEAR,
       NvmUpdiP5.NVMCMD_FLASH_PAGE_WRITE] ∧
    (NvmUpdiP5.write_flash 0x8000 [1, 2] [0] [0] []).2 =
      .error (.serialUpdiNvmTimeout
        "Timeout waiting for NVM controller to be ready after page write") ∧
    NvmEvent.command NvmUpdiP5.NVMCMD_NOCMD ∉
      (NvmUpdiP5.write_flash 0x8000 [1, 2] [0] [0] []).1 ∧
    NvmUpdiAvrV2.chip_erase 0x20 [0] [0] =
      ([NvmEvent.waitReady 10000, NvmEvent.command 0x20,
        NvmEvent.waitReady 10000], .ok true) ∧
    commandsOf (NvmUpdiAvrV2.chip_erase 0x20 [0] [0]).1 = [0x20] := by
  refine ⟨by decide, by rfl, by decide, by rfl, by decide⟩

/-- C4 (amended): the NOCMD discipline holds only in part.  The P:4 and P:5
drivers follow every listed command with NOCMD on their success paths, and
P:4 chip_erase - like the legacy P:3-family NvmUpdiAvrV3.chip_erase -
writes NOCMD even on its timeout path.  It fails on three exit paths: when
wait_nvm_ready raises the NVM-error the exception propagates before NOCMD;
NvmUpdiP5.write_nvm's commit-timeout path raises before its NOCMD; and the
P:2-family driver in src, NvmUpdiAvrV2.chip_erase, writes no NOCMD on any
path, success included (the dispatched NvmUpdiP2/NvmUpdiP3 modules are
absent from src; the legacy AvrV2/AvrV3 drivers are the P:2/P:3 code in
src). -/
theorem claim_C4_amended (w1 w2 w3 : List Nat) (address : Nat)
    (data : List Nat) (use_word_access : Bool)
    (nvmcommand erasebuffer_command : Nat) :
    ((NvmUpdiP4.chip_erase w1 w2).2 = .ok () →
      commandsOf (NvmUpdiP4.chip_erase w1 w2).1 =
        [NvmUpdiP4.NVMCMD_CHIP_ERASE, NvmUpdiP4.NVMCMD_NOCMD]) ∧
    (∀ m, (NvmUpdiP4.chip_erase w1 w2).2 = .error (.serialUpdiNvmTimeout m) →
      commandsOf (NvmUpdiP4.chip_erase w1 w2).1 = [] ∨
      commandsOf (NvmUpdiP4.chip_erase w1 w2).1 =
        [NvmUpdiP4.NVMCMD_CHIP_ERASE, NvmUpdiP4.NVMCMD_NOCMD]) ∧
    (∀ m c, (NvmUpdiP4.chip_erase w1 w2).2 =
        .error (.serialUpdiNvmError m c) →
      commandsOf (NvmUpdiP4.chip_erase w1 w2).1 = [] ∨
      commandsOf (NvmUpdiP4.chip_erase w1 w2).1 =
        [NvmUpdiP4.NVMCMD_CHIP_ERASE]) ∧
    ((NvmUpdiP5.write_nvm address data use_word_access nvmcommand
        erasebuffer_command w1 w2 w3).2 = .ok () →
      commandsOf (NvmUpdiP5.write_nvm address data use_word_access nvmcommand
        erasebuffer_command w1 w2 w3).1 =
        [erasebuffer_command, nvmcommand, NvmUpdiP5.NVMCMD_NOCMD]) ∧
    (NvmUpdiP5.wait_nvm_ready_poll w1 = .ok true →
     NvmUpdiP5.wait_nvm_ready_poll w2 = .ok true →
     NvmUpdiP5.wait_nvm_ready_poll w3 = .ok false →
      commandsOf (NvmUpdiP5.write_nvm address data use_word_access nvmcommand
        erasebuffer_command w1 w2 w3).1 = [erasebuffer_command, nvmcommand] ∧
      (NvmUpdiP5.write_nvm address data use_word_access nvmcommand
        erasebuffer_command w1 w2 w3).2 =
        .error (.serialUpdiNvmTimeout
          "Timeout waiting for NVM controller to be ready after page write")) ∧
    (∀ cmd, (NvmUpdiAvrV2.chip_erase cmd w1 w2).2 = .ok true →
      commandsOf (NvmUpdiAvrV2.chip_erase cmd w1 w2).1 = [cmd]) ∧
    (∀ cmd, commandsOf (NvmUpdiAvrV2.chip_erase cmd w1 w2).1 = [] ∨
      commandsOf (NvmUpdiAvrV2.chip_erase cmd w1 w2).1 = [cmd]) ∧
    (∀ cmd nocmd, commandsOf (NvmUpdiAvrV3.chip_erase cmd nocmd w1 w2).1 = [] ∨
      commandsOf (NvmUpdiAvrV3.chip_erase cmd nocmd w1 w2).1 = [cmd, nocmd]) := by
  refine ⟨?_, ?_, ?_, ?_, ?_, ?_, ?_, ?_⟩
  · intro hok
    rcases h1 : NvmUpdiP4.wait_nvm_ready_poll w1 with e1 | b1
    · simp [NvmUpdiP4.chip_erase, h1] at hok
    · cases b1
      · simp [NvmUpdiP4.chip_erase, h1] at hok
      · rcases h2 : NvmUpdiP4.wait_nvm_ready_poll w2 with e2 | b2
        · simp [NvmUpdiP4.chip_erase, h1, h2] at hok
        · cases b2
          · simp [NvmUpdiP4.chip_erase, h1, h2] at hok
          · simp [NvmUpdiP4.chip_erase, h1, h2, commandsOf]
  · intro m hok
    rcases h1 : NvmUpdiP4.wait_nvm_ready_poll w1 with e1 | b1
    · left
      simp [NvmUpdiP4.chip_erase, h1, commandsOf]
    · cases b1
      · left
        simp [NvmUpdiP4.chip_erase, h1, commandsOf]
      · rcases h2 : NvmUpdiP4.wait_nvm_ready_poll w2 with e2 | b2
        · obtain ⟨c, rfl⟩ := p4_wait_error_kind w2 e2 h2
          simp [NvmUpdiP4.chip_erase, h1, h2] at hok
        · cases b2
          · right
            simp [NvmUpdiP4.chip_erase, h1, h2, commandsOf]
          · simp [NvmUpdiP4.chip_erase, h1, h2] at hok
  · intro m c hok
    rcases h1 : NvmUpdiP4.wait_nvm_ready_poll w1 with e1 | b1
    · left
      simp [NvmUpdiP4.chip_erase, h1, commandsOf]
    · cases b1
      · simp [NvmUpdiP4.chip_erase, h1] at hok
      · rcases h2 : NvmUpdiP4.wait_nvm_ready_poll w2 with e2 | b2
        · right
          simp [NvmUpdiP4.chip_erase, h1, h2, commandsOf]
        · cases b2
          · simp [NvmUpdiP4.chip_erase, h1, h2] at hok
          · simp [NvmUpdiP4.chip_erase, h1, h2] at hok
  · intro hok
    rcases h1 : NvmUpdiP5.wait_nvm_ready_poll w1 with e1 | b1
    · simp [NvmUpdiP5.write_nvm, h1] at hok
    · cases b1
      · simp [NvmUpdiP5.write_nvm, h1] at hok
      · rcases h2 : NvmUpdiP5.wait_nvm_ready_poll w2 with e2 | b2
        · simp [NvmUpdiP5.write_nvm, h1, h2] at hok
        · cases b2
          · simp [NvmUpdiP5.write_nvm, h1, h2] at hok
          · rcases h3 : NvmUpdiP5.wait_nvm_ready_poll w3 with e3 | b3
            · simp [NvmUpdiP5.write_nvm, h1, h2, h3] at hok
            · cases b3
              · simp [NvmUpdiP5.write_nvm, h1, h2, h3] at hok
              · cases use_word_access <;>
                  simp [NvmUpdiP5.write_nvm, h1, h2, h3, commandsOf]
  · intro h1 h2 h3
    cases use_word_access <;>
      simp [NvmUpdiP5.write_nvm, h1, h2, h3, commandsOf]
  · intro cmd hok
    by_cases hb1 : NvmUpdi.wait_nvm_ready_poll w1
    · by_cases hb2 : NvmUpdi.wait_nvm_ready_poll w2
      · simp [NvmUpdiAvrV2.chip_erase, hb1, hb2, commandsOf]
      · simp [NvmUpdiAvrV2.chip_erase, hb1, hb2] at hok
    · simp [NvmUpdiAvrV2.chip_erase, hb1] at hok
  · intro cmd
    by_cases hb1 : NvmUpdi.wait_nvm_ready_poll w1
    · right
      by_cases hb2 : NvmUpdi.wait_nvm_ready_poll w2 <;>
        simp [NvmUpdiAvrV2.chip_erase, hb1, hb2, commandsOf]
    · left
      simp [NvmUpdiAvrV2.chip_erase, hb1, commandsOf]
  · intro cmd nocmd
    by_cases hb1 : NvmUpdi.wait_nvm_ready_poll w1
    · right
      by_cases hb2 : NvmUpdi.wait_nvm_ready_poll w2 <;>
        simp [NvmUpdiAvrV3.chip_erase, hb1, hb2, commandsOf]
    · left
      simp [NvmUpdiAvrV3.chip_erase, hb1, commandsOf]

/-- C4 witness: a successful P:5 flash write clears with NOCMD, while a
successful P:2-family (NvmUpdiAvrV2) chip erase leaves its command as the
only CTRLA write. -/
theorem claim_C4_witness :
    (NvmUpdiP5.write_nvm 0x8000 [1, 2] true NvmUpdiP5.NVMCMD_FLASH_PAGE_WRITE
        NvmUpdiP5.NVMCMD_FLASH_PAGE_BUFFER_CLEAR [0] [0] [0]).2 = .ok () ∧
    commandsOf (NvmUpdiP5.write_nvm 0x8000 [1, 2] true
        NvmUpdiP5.NVMCMD_FLASH_PAGE_WRITE
        NvmUpdiP5.NVMCMD_FLASH_PAGE_BUFFER_CLEAR [0] [0] [0]).1 =
      [NvmUpdiP5.NVMCMD_FLASH_PAGE_BUFFER_CLEAR,
       NvmUpdiP5.NVMCMD_FLASH_PAGE_WRITE, NvmUpdiP5.NVMCMD_NOCMD] ∧
    (NvmUpdiAvrV2.chip_erase 0x20 [0] [0]).2 = .ok true ∧
    commandsOf (NvmUpdiAvrV2.chip_erase 0x20 [0] [0]).1 = [0x20] :=
  ⟨by rfl,
   (claim_C4_amended [0] [0] [0] 0x8000 [1, 2] true
      NvmUpdiP5.NVMCMD_FLASH_PAGE_WRITE
      NvmUpdiP5.NVMCMD_FLASH_PAGE_BUFFER_CLEAR).2.2.2.1 (by rfl),
   by rfl,
   (claim_C4_amended [0] [0] [0] 0x8000 [1, 2] true
      NvmUpdiP5.NVMCMD_FLASH_PAGE_WRITE
      NvmUpdiP5.NVMCMD_FLASH_PAGE_BUFFER_CLEAR).2.2.2.2.2.1 0x20 (by rfl)⟩

/-- C5: read_device_info performs at most one double-break recovery: a first
successful SIB decode sends no double break; a first decode returning None
sends exactly one double break and retries once; a second None is fatal; in
every run at most one double break is sent. -/
theorem claim_C5 (sib1 sib2 : List Nat) :
    (∀ info, decode_sib sib1 = .ok (some info) →
      UpdiApplication.read_device_info_sib sib1 sib2 = (0, .ok info)) ∧
    (decode_sib sib1 = .ok none →
      (UpdiApplication.read_device_info_sib sib1 sib2).1 = 1) ∧
    (∀ info, decode_sib sib1 = .ok none → decode_sib sib2 = .ok (some info) →
      UpdiApplication.read_device_info_sib sib1 sib2 = (1, .ok info)) ∧
    (decode_sib sib1 = .ok none → decode_sib sib2 = .ok none →
      UpdiApplication.read_device_info_sib sib1 sib2 =
        (1, .error (.serialUpdi "Failed to read device info."))) ∧
    (UpdiApplication.read_device_info_sib sib1 sib2).1 ≤ 1 := by
  refine ⟨?_, ?_, ?_, ?_, ?_⟩
  · intro info h1
    simp [UpdiApplication.read_device_info_sib, h1]
  · intro h1
    rcases h2 : decode_sib sib2 with e2 | o2
    · simp [UpdiApplication.read_device_info_sib, h1, h2]
    · rcases o2 with _ | info2 <;>
        simp [UpdiApplication.read_device_info_sib, h1, h2]
  · intro info h1 h2
    simp [UpdiApplication.read_device_info_sib, h1, h2]
  · intro h1 h2
    simp [UpdiApplication.read_device_info_sib, h1, h2]
  · rcases h1 : decode_sib sib1 with e1 | o1
    · simp [UpdiApplication.read_device_info_sib, h1]
    · rcases o1 with _ | info1
      · rcases h2 : decode_sib sib2 with e2 | o2
        · simp [UpdiApplication.read_device_info_sib, h1, h2]
        · rcases o2 with _ | info2 <;>
            simp [UpdiApplication.read_device_info_sib, h1, h2]
      · simp [UpdiApplication.read_device_info_sib, h1]

/-- C5 witness: an empty first SIB (too short) and a non-ASCII second SIB
give exactly one double break and the fatal error. -/
theorem claim_C5_witness :
    decode_sib [] = .ok none ∧ decode_sib [200] = .ok none ∧
    UpdiApplication.read_device_info_sib [] [200] =
      (1, .error (.serialUpdi "Failed to read device info.")) :=
  ⟨by rfl, by rfl, (claim_C5 [] [200]).2.2.2.1 (by rfl) (by rfl)⟩

/-- If every polled ASI_SYS_STATUS keeps LOCKSTATUS set, wait_unlocked
returns False. -/
theorem wait_unlocked_poll_all_locked (polls : List Nat)
    (h : ∀ s ∈ polls,
      s &&& (1 <<< UPDI_ASI_SYS_STATUS_LOCKSTATUS) ≠ 0) :
    UpdiApplication.wait_unlocked_poll polls = false := by
  induction polls with
  | nil => rfl
  | cons x xs ih =>
    unfold UpdiApplication.wait_unlocked_poll
    rw [if_neg (h x (by simp))]
    exact ih (fun y hy => h y (by simp [hy]))

/-- C6: when the device is not already in programming mode, the NVMProg key
is accepted, and LOCKSTATUS stays set for the whole 100 ms wait,
enter_progmode raises the distinct PymcuprogSerialUpdiLockedError - a
different constructor from the generic serial-UPDI error. -/
theorem claim_C6 (first_sys_status key_status final_sys_status : Nat)
    (unlock_polls : List Nat)
    (h1 : first_sys_status &&& (1 <<< UPDI_ASI_SYS_STATUS_NVMPROG) = 0)
    (h2 : key_status &&& (1 <<< UPDI_ASI_KEY_STATUS_NVMPROG) ≠ 0)
    (h3 : ∀ s ∈ unlock_polls,
      s &&& (1 <<< UPDI_ASI_SYS_STATUS_LOCKSTATUS) ≠ 0) :
    (UpdiApplication.enter_progmode first_sys_status key_status unlock_polls
        final_sys_status).2 =
      .error (.serialUpdiLocked
        "Failed to enter NVM programming mode: device is locked") ∧
    AppEvent.waitUnlocked 100 ∈
      (UpdiApplication.enter_progmode first_sys_status key_status unlock_polls
        final_sys_status).1 ∧
    (∀ m1 m2, PymcuprogException.serialUpdiLocked m1 ≠
      PymcuprogException.serialUpdi m2) := by
  have hw := wait_unlocked_poll_all_locked unlock_polls h3
  have hp : UpdiApplication.in_prog_mode first_sys_status = false := by
    simp [UpdiApplication.in_prog_mode, h1]
  refine ⟨?_, ?_, ?_⟩
  · simp [UpdiApplication.enter_progmode, hp, h2, hw]
  · simp [UpdiApplication.enter_progmode, hp, h2, hw]
  · intro m1 m2 hcon
    exact PymcuprogException.noConfusion hcon

/-- C6 witness: a locked device (SYS_STATUS 0, KEY_STATUS bit NVMPROG set,
LOCKSTATUS set in every poll). -/
theorem claim_C6_witness :
    (0 : Nat) &&& (1 <<< UPDI_ASI_SYS_STATUS_NVMPROG) = 0 ∧
    (16 : Nat) &&& (1 <<< UPDI_ASI_KEY_STATUS_NVMPROG) ≠ 0 ∧
    ((UpdiApplication.enter_progmode 0 16 [1] 0).2 =
      .error (.serialUpdiLocked
        "Failed to enter NVM programming mode: device is locked") ∧
    AppEvent.waitUnlocked 100 ∈ (UpdiApplication.enter_progmode 0 16 [1] 0).1 ∧
    (∀ m1 m2, PymcuprogException.serialUpdiLocked m1 ≠
      PymcuprogException.serialUpdi m2)) :=
  ⟨by decide, by decide, claim_C6 0 16 0 [1] (by decide) (by decide) (by decide)⟩

/-- C9: enter_progmode is idempotent - whenever the NVMPROG bit of the first
ASI_SYS_STATUS read is set, it returns True with an empty trace: no reset,
no key transfer, no control/status write. -/
theorem claim_C9 (first_sys_status key_status final_sys_status : Nat)
    (unlock_polls : List Nat)
    (h : UpdiApplication.in_prog_mode first_sys_status = true) :
    UpdiApplication.enter_progmode first_sys_status key_status unlock_polls
      final_sys_status = ([], .ok true) := by
  simp [UpdiApplication.enter_progmode, h]

/-- C9 witness: SYS_STATUS 8 has the NVMPROG bit set. -/
theorem claim_C9_witness :
    UpdiApplication.in_prog_mode 8 = true ∧
    UpdiApplication.enter_progmode 8 0 [] 0 = ([], .ok true) :=
  ⟨by decide, claim_C9 8 0 0 [] (by decide)⟩

/-- C7 counterexample: with expected id 0x1E9327 a signature read of
[0x27, 0x93, 0x1E] FAILS verification (the code compares the big-endian
value 0x27931E with the expected id), contrary to the claim that it passes. -/
theorem claim_C7_counterexample :
    NvmAccessProviderSerial.read_device_id_check 0x1E9327 [0x27, 0x93, 0x1E] =
      .error (.sessionError "Device ID mismatch") := by
  rfl

/-- C7 (amended): signature read reads 3 bytes at sigrow_address, compares
their BIG-endian 24-bit value with expected_device_id, raises a session
error exactly when they differ, and returns the bytes reversed
(little-endian); for id 0x1E9327 the passing read is [0x1E, 0x93, 0x27] and
the returned value is [0x27, 0x93, 0x1E]. -/
theorem claim_C7_amended (expected : Nat) (sig : List Nat)
    (h : sig.length = 3) :
    (NvmAccessProviderSerial.read_device_id_check expected sig =
        .ok [sig.getD 2 0, sig.getD 1 0, sig.getD 0 0] ↔
      unpack_be24 sig = expected) ∧
    (unpack_be24 sig ≠ expected →
      NvmAccessProviderSerial.read_device_id_check expected sig =
        .error (.sessionError "Device ID mismatch")) ∧
    NvmAccessProviderSerial.read_device_id_check 0x1E9327 [0x1E, 0x93, 0x27] =
      .ok [0x27, 0x93, 0x1E] := by
  have hred : NvmAccessProviderSerial.read_device_id_check expected sig =
      if ¬ (expected = unpack_be24 sig) then
        .error (.sessionError "Device ID mismatch")
      else .ok [sig.getD 2 0, sig.getD 1 0, sig.getD 0 0] := by
    unfold NvmAccessProviderSerial.read_device_id_check
    rw [if_neg (not_not_intro h)]
  refine ⟨?_, ?_, by rfl⟩
  · rw [hred]
    by_cases he : expected = unpack_be24 sig
    · rw [if_neg (not_not_intro he)]
      simp [he]
    · rw [if_pos he]
      constructor
      · intro hr
        exact absurd hr (by simp)
      · intro hu
        exact absurd hu.symm he
  · intro hne
    rw [hred, if_pos (fun he => hne he.symm)]

/-- C7 witness: the correct big-endian read passes and is returned
reversed. -/
theorem claim_C7_witness :
    ([0x1E, 0x93, 0x27] : List Nat).length = 3 ∧
    NvmAccessProviderSerial.read_device_id_check 0x1E9327 [0x1E, 0x93, 0x27] =
      .ok [0x27, 0x93, 0x1E] :=
  ⟨by decide, (claim_C7_amended 0x1E9327 [0x1E, 0x93, 0x27] (by decide)).2.2⟩

/-- P:0 wait returns True only by accepting a polled STATUS with both busy
bits clear. -/
theorem p0_wait_ready_split (ss : List Nat)
    (h : NvmUpdiP0.wait_nvm_ready_poll ss = .ok true) :
    ∃ pre s post, ss = pre ++ s :: post ∧
      s &&& ((1 <<< NvmUpdiP0.STATUS_EEPROM_BUSY_bp) |||
        (1 <<< NvmUpdiP0.STATUS_FLASH_BUSY_bp)) = 0 := by
  induction ss with
  | nil => simp [NvmUpdiP0.wait_nvm_ready_poll] at h
  | cons x xs ih =>
    unfold NvmUpdiP0.wait_nvm_ready_poll at h
    split at h
    · simp at h
    · split at h
      · rename_i hcerr hcbusy
        exact ⟨[], x, xs, rfl, hcbusy⟩
      · obtain ⟨pre, s, post, heq, hs⟩ := ih h
        exact ⟨x :: pre, s, post, by simp [heq], hs⟩

/-- P:0 wait returns False only when every poll within the budget was busy. -/
theorem p0_wait_false_all_busy (ss : List Nat)
    (h : NvmUpdiP0.wait_nvm_ready_poll ss = .ok false) :
    ∀ s ∈ ss, s &&& ((1 <<< NvmUpdiP0.STATUS_EEPROM_BUSY_bp) |||
      (1 <<< NvmUpdiP0.STATUS_FLASH_BUSY_bp)) ≠ 0 := by
  induction ss with
  | nil => simp
  | cons x xs ih =>
    unfold NvmUpdiP0.wait_nvm_ready_poll at h
    split at h
    · simp at h
    · split at h
      · simp at h
      · rename_i hcerr hcbusy
        intro s hs
        rcases List.mem_cons.mp hs with hs1 | hmem
        · subst hs1
          exact hcbusy
        · exact ih h s hmem

/-- P:4 wait returns True only by accepting a polled STATUS with both busy
bits clear. -/
theorem p4_wait_ready_split (ss : List Nat)
    (h : NvmUpdiP4.wait_nvm_ready_poll ss = .ok true) :
    ∃ pre s post, ss = pre ++ s :: post ∧
      s &&& ((1 <<< NvmUpdiP4.STATUS_EEPROM_BUSY_bp) |||
        (1 <<< NvmUpdiP4.STATUS_FLASH_BUSY_bp)) = 0 := by
  induction ss with
  | nil => simp [NvmUpdiP4.wait_nvm_ready_poll] at h
  | cons x xs ih =>
    unfold NvmUpdiP4.wait_nvm_ready_poll at h
    split at h
    · simp at h
    · split at h
      · rename_i hcerr hcbusy
        exact ⟨[], x, xs, rfl, hcbusy⟩
      · obtain ⟨pre, s, post, heq, hs⟩ := ih h
        exact ⟨x :: pre, s, post, by simp [heq], hs⟩

/-- P:4 wait returns False only when every poll within the budget was busy. -/
theorem p4_wait_false_all_busy (ss : List Nat)
    (h : NvmUpdiP4.wait_nvm_ready_poll ss = .ok false) :
    ∀ s ∈ ss, s &&& ((1 <<< NvmUpdiP4.STATUS_EEPROM_BUSY_bp) |||
      (1 <<< NvmUpdiP4.STATUS_FLASH_BUSY_bp)) ≠ 0 := by
  induction ss with
  | nil => simp
  | cons x xs ih =>
    unfold NvmUpdiP4.wait_nvm_ready_poll at h
    split at h
    · simp at h
    · split at h
      · simp at h
      · rename_i hcerr hcbusy
        intro s hs
        rcases List.mem_cons.mp hs with hs1 | hmem
        · subst hs1
          exact hcbusy
        · exact ih h s hmem

/-- P:5 wait returns True only by accepting a polled STATUS with both busy
bits clear. -/
theorem p5_wait_ready_split (ss : List Nat)
    (h : NvmUpdiP5.wait_nvm_ready_poll ss = .ok true) :
    ∃ pre s post, ss = pre ++ s :: post ∧
      s &&& ((1 <<< NvmUpdiP5.STATUS_EEPROM_BUSY_bp) |||
        (1 <<< NvmUpdiP5.STATUS_FLASH_BUSY_bp)) = 0 := by
  induction ss with
  | nil => simp [NvmUpdiP5.wait_nvm_ready_poll] at h
  | cons x xs ih =>
    unfold NvmUpdiP5.wait_nvm_ready_poll at h
    split at h
    · simp at h
    · split at h
      · rename_i hcerr hcbusy
        exact ⟨[], x, xs, rfl, hcbusy⟩
      · obtain ⟨pre, s, post, heq, hs⟩ := ih h
        exact ⟨x :: pre, s, post, by simp [heq], hs⟩

/-- P:5 wait returns False only when every poll within the budget was busy. -/
theorem p5_wait_false_all_busy (ss : List Nat)
    (h : NvmUpdiP5.wait_nvm_ready_poll ss = .ok false) :
    ∀ s ∈ ss, s &&& ((1 <<< NvmUpdiP5.STATUS_EEPROM_BUSY_bp) |||
      (1 <<< NvmUpdiP5.STATUS_FLASH_BUSY_bp)) ≠ 0 := by
  induction ss with
  | nil => simp
  | cons x xs ih =>
    unfold NvmUpdiP5.wait_nvm_ready_poll at h
    split at h
    · simp at h
    · split at h
      · simp at h
      · rename_i hcerr hcbusy
        intro s hs
        rcases List.mem_cons.mp hs with hs1 | hmem
        · subst hs1
          exact hcbusy
        · exact ih h s hmem

/-- The legacy wait returns True only by accepting a busy-clear STATUS. -/
theorem base_wait_true_split (ss : List Nat)
    (h : NvmUpdi.wait_nvm_ready_poll ss = true) :
    ∃ pre s post, ss = pre ++ s :: post ∧
      s &&& ((1 <<< UPDI_NVM_STATUS_EEPROM_BUSY) |||
        (1 <<< UPDI_NVM_STATUS_FLASH_BUSY)) = 0 := by
  induction ss with
  | nil => simp [NvmUpdi.wait_nvm_ready_poll] at h
  | cons x xs ih =>
    unfold NvmUpdi.wait_nvm_ready_poll at h
    split at h
    · simp at h
    · split at h
      · rename_i hcerr hcbusy
        exact ⟨[], x, xs, rfl, hcbusy⟩
      · obtain ⟨pre, s, post, heq, hs⟩ := ih h
        exact ⟨x :: pre, s, post, by simp [heq], hs⟩

/-- The legacy wait returns False only on budget expiry with every poll busy
or on an observed error bit. -/
theorem base_wait_false_cases (ss : List Nat)
    (h : NvmUpdi.wait_nvm_ready_poll ss = false) :
    (∀ s ∈ ss, s &&& ((1 <<< UPDI_NVM_STATUS_EEPROM_BUSY) |||
      (1 <<< UPDI_NVM_STATUS_FLASH_BUSY)) ≠ 0) ∨
    (∃ pre s post, ss = pre ++ s :: post ∧
      s &&& (1 <<< UPDI_NVM_STATUS_WRITE_ERROR) ≠ 0) := by
  induction ss with
  | nil =>
    left
    simp
  | cons x xs ih =>
    unfold NvmUpdi.wait_nvm_ready_poll at h
    split at h
    · rename_i hcerr
      right
      exact ⟨[], x, xs, rfl, hcerr⟩
    · split at h
      · simp at h
      · rcases ih h with hall | ⟨pre, s, post, heq, hs⟩
        · rename_i hcerr hcbusy
          left
          intro s hsm
          rcases List.mem_cons.mp hsm with hs1 | hmem
          · subst hs1
            exact hcbusy
          · exact hall s hmem
        · right
          exact ⟨x :: pre, s, post, by simp [heq], hs⟩

/-- C8: for every variant's wait_nvm_ready and every polled STATUS sequence,
True is returned only by accepting a STATUS with both busy bits clear, and
False only after the budget expires with every poll busy (or, on the legacy
wait, on the error bit); ready is never reported while a busy bit is set. -/
theorem claim_C8 (ss : List Nat) :
    (NvmUpdiP0.wait_nvm_ready_poll ss = .ok true →
      ∃ pre s post, ss = pre ++ s :: post ∧
        s &&& ((1 <<< NvmUpdiP0.STATUS_EEPROM_BUSY_bp) |||
          (1 <<< NvmUpdiP0.STATUS_FLASH_BUSY_bp)) = 0) ∧
    (NvmUpdiP0.wait_nvm_ready_poll ss = .ok false →
      ∀ s ∈ ss, s &&& ((1 <<< NvmUpdiP0.STATUS_EEPROM_BUSY_bp) |||
        (1 <<< NvmUpdiP0.STATUS_FLASH_BUSY_bp)) ≠ 0) ∧
    (NvmUpdiP4.wait_nvm_ready_poll ss = .ok true →
      ∃ pre s post, ss = pre ++ s :: post ∧
        s &&& ((1 <<< NvmUpdiP4.STATUS_EEPROM_BUSY_bp) |||
          (1 <<< NvmUpdiP4.STATUS_FLASH_BUSY_bp)) = 0) ∧
    (NvmUpdiP4.wait_nvm_ready_poll ss = .ok false →
      ∀ s ∈ ss, s &&& ((1 <<< NvmUpdiP4.STATUS_EEPROM_BUSY_bp) |||
        (1 <<< NvmUpdiP4.STATUS_FLASH_BUSY_bp)) ≠ 0) ∧
    (NvmUpdiP5.wait_nvm_ready_poll ss = .ok true →
      ∃ pre s post, ss = pre ++ s :: post ∧
        s &&& ((1 <<< NvmUpdiP5.STATUS_EEPROM_BUSY_bp) |||
          (1 <<< NvmUpdiP5.STATUS_FLASH_BUSY_bp)) = 0) ∧
    (NvmUpdiP5.wait_nvm_ready_poll ss = .ok false →
      ∀ s ∈ ss, s &&& ((1 <<< NvmUpdiP5.STATUS_EEPROM_BUSY_bp) |||
        (1 <<< NvmUpdiP5.STATUS_FLASH_BUSY_bp)) ≠ 0) ∧
    (NvmUpdi.wait_nvm_ready_poll ss = true →
      ∃ pre s post, ss = pre ++ s :: post ∧
        s &&& ((1 <<< UPDI_NVM_STATUS_EEPROM_BUSY) |||
          (1 <<< UPDI_NVM_STATUS_FLASH_BUSY)) = 0) ∧
    (NvmUpdi.wait_nvm_ready_poll ss = false →
      (∀ s ∈ ss, s &&& ((1 <<< UPDI_NVM_STATUS_EEPROM_BUSY) |||
        (1 <<< UPDI_NVM_STATUS_FLASH_BUSY)) ≠ 0) ∨
      (∃ pre s post, ss = pre ++ s :: post ∧
        s &&& (1 <<< UPDI_NVM_STATUS_WRITE_ERROR) ≠ 0)) :=
  ⟨fun h => p0_wait_ready_split ss h,
   fun h => p0_wait_false_all_busy ss h,
   fun h => p4_wait_ready_split ss h,
   fun h => p4_wait_false_all_busy ss h,
   fun h => p5_wait_ready_split ss h,
   fun h => p5_wait_false_all_busy ss h,
   fun h => base_wait_true_split ss h,
   fun h => base_wait_false_cases ss h⟩

/-- C8 witness: the sequence busy-then-clear is accepted at the clear
status; the all-busy sequence times out. -/
theorem claim_C8_witness :
    (∃ pre s post, ([3, 0] : List Nat) = pre ++ s :: post ∧
      s &&& ((1 <<< NvmUpdiP0.STATUS_EEPROM_BUSY_bp) |||
        (1 <<< NvmUpdiP0.STATUS_FLASH_BUSY_bp)) = 0) ∧
    (∀ s ∈ ([3] : List Nat),
      s &&& ((1 <<< NvmUpdiP4.STATUS_EEPROM_BUSY_bp) |||
        (1 <<< NvmUpdiP4.STATUS_FLASH_BUSY_bp)) ≠ 0) :=
  ⟨(claim_C8 [3, 0]).1 (by rfl), (claim_C8 [3]).2.2.2.1 (by rfl)⟩

/-- C10: the application-layer UpdiApplication.write_data recurses on itself
with unchanged arguments, so for every recursion budget it exhausts the
budget (Python's RecursionError) and never returns normally - in particular
it performs no serial I/O, delegating nothing to the RW layer. -/
theorem claim_C10 (fuel address : Nat) (data : List Nat) :
    UpdiApplication.write_data fuel address data = none := by
  induction fuel with
  | zero => rfl
  | succ n ih => exact ih
